import Mathlib

/-!
Verification of the PetAd backend pet-status state machine.

This file is a shallow embedding of the TypeScript sources
`src/pets/validators/status-transition.validator.ts`,
`src/pets/pets.service.ts` and the adoption workflow, together with
theorems settling the spec claims about them.  Persistence is modelled
as an explicit list of pet rows threaded through each operation, and a
thrown NestJS exception is modelled as the error side of `Except`.
-/

namespace PetAd

/-- Embeds the `PetStatus` enum from the common enums module. -/
inductive PetStatus
  | AVAILABLE
  | PENDING
  | IN_CUSTODY
  | ADOPTED
deriving DecidableEq, Repr, Fintype

/-- Embeds the `UserRole` enum (`ADMIN`, `USER`, `SHELTER`). -/
inductive UserRole
  | ADMIN
  | USER
  | SHELTER
deriving DecidableEq, Repr, Fintype

/-- The list produced by `Object.values(PetStatus)` in declaration order. -/
def petStatusValues : List PetStatus :=
  [.AVAILABLE, .PENDING, .IN_CUSTODY, .ADOPTED]

/-- Embeds `StatusTransitionValidator.ALLOWED_TRANSITIONS`: for each
current status, the array of ordinary target statuses. -/
def ALLOWED_TRANSITIONS : PetStatus → List PetStatus
  | .AVAILABLE => [.PENDING, .IN_CUSTODY]
  | .PENDING => [.ADOPTED, .AVAILABLE]
  | .IN_CUSTODY => [.AVAILABLE]
  | .ADOPTED => []

/-- Embeds `StatusTransitionValidator.ADMIN_ONLY_TRANSITIONS`. -/
def ADMIN_ONLY_TRANSITIONS : PetStatus → List PetStatus
  | .AVAILABLE => []
  | .PENDING => []
  | .IN_CUSTODY => []
  | .ADOPTED => [.AVAILABLE]

/-- The flattened list `Object.values(ALLOWED_TRANSITIONS).flat()` used by
the invalid-new-status guard in `StatusTransitionValidator.validate`. -/
def flatAllowedTargets : List PetStatus :=
  (petStatusValues.map ALLOWED_TRANSITIONS).flatten

instance {ε α : Type} [DecidableEq ε] [DecidableEq α] : DecidableEq (Except ε α) := fun x y =>
  match x, y with
  | .ok a, .ok b =>
      if h : a = b then .isTrue (by rw [h])
      else .isFalse (fun hc => by cases hc; exact h rfl)
  | .ok _, .error _ => .isFalse (fun hc => by cases hc)
  | .error _, .ok _ => .isFalse (fun hc => by cases hc)
  | .error e, .error f =>
      if h : e = f then .isTrue (by rw [h])
      else .isFalse (fun hc => by cases hc; exact h rfl)

/-- The distinct `BadRequestException` messages thrown by
`StatusTransitionValidator.validate`, one constructor per `throw` site. -/
inductive ValidateError
  | noTransitionNeeded (current : PetStatus)
  | invalidCurrentStatus (current : PetStatus)
  | invalidNewStatus (next : PetStatus)
  | adminRoleRequired (current next : PetStatus)
  | transitionNotAllowed (current next : PetStatus)
deriving DecidableEq, Repr

/-- Embeds `StatusTransitionValidator.validate(currentStatus, newStatus,
userRole?)`; a thrown `BadRequestException` becomes the error side. -/
def validate (currentStatus newStatus : PetStatus) (userRole : Option UserRole) :
    Except ValidateError Bool :=
  if currentStatus = newStatus then
    .error (.noTransitionNeeded currentStatus)
  else if currentStatus ∉ petStatusValues then
    .error (.invalidCurrentStatus currentStatus)
  else if newStatus ∉ flatAllowedTargets then
    .error (.invalidNewStatus newStatus)
  else
    let allowedTransitions := ALLOWED_TRANSITIONS currentStatus
    if newStatus ∈ allowedTransitions then
      .ok true
    else
      let adminOnlyTransitions := ADMIN_ONLY_TRANSITIONS currentStatus
      if newStatus ∈ adminOnlyTransitions then
        if userRole = some UserRole.ADMIN then
          .ok true
        else
          .error (.adminRoleRequired currentStatus newStatus)
      else
        .error (.transitionNotAllowed currentStatus newStatus)

/-- Embeds `StatusTransitionValidator.getAllowedTransitions`: ordinary
targets plus, for `ADMIN`, the admin-only targets, deduplicated in
first-occurrence order as JavaScript `Array.from(new Set(...))` does. -/
def dedupFirstAux (seen : List PetStatus) : List PetStatus → List PetStatus
  | [] => []
  | a :: l => if a ∈ seen then dedupFirstAux seen l else a :: dedupFirstAux (a :: seen) l

/-- First-occurrence deduplication, as JavaScript `new Set` insertion. -/
def dedupFirst (l : List PetStatus) : List PetStatus :=
  dedupFirstAux [] l

/-- Embeds `StatusTransitionValidator.getAllowedTransitions`. -/
def getAllowedTransitions (currentStatus : PetStatus) (userRole : Option UserRole) :
    List PetStatus :=
  let standardTransitions := ALLOWED_TRANSITIONS currentStatus
  let adminTransitions :=
    if userRole = some UserRole.ADMIN then ADMIN_ONLY_TRANSITIONS currentStatus else []
  dedupFirst (standardTransitions ++ adminTransitions)

/-- An ordered pair of statuses is in the static edge table when the target
appears among the ordinary or the elevated-only targets of the source. -/
def inEdgeTable (a b : PetStatus) : Prop :=
  b ∈ ALLOWED_TRANSITIONS a ∨ b ∈ ADMIN_ONLY_TRANSITIONS a

instance (a b : PetStatus) : Decidable (inEdgeTable a b) := by
  unfold inEdgeTable; infer_instance

example : validate .AVAILABLE .PENDING none = .ok true := by decide
example : validate .ADOPTED .AVAILABLE (some .USER) =
    .error (.adminRoleRequired .ADOPTED .AVAILABLE) := by decide
example : validate .ADOPTED .AVAILABLE (some .ADMIN) = .ok true := by decide
example : validate .AVAILABLE .AVAILABLE (some .ADMIN) =
    .error (.noTransitionNeeded .AVAILABLE) := by decide

/-- A pet row as read and written by `PetsService`; only the fields the
status operations touch are carried. -/
structure Pet where
  id : String
  status : PetStatus
deriving DecidableEq, Repr

/-- The pet table; `prisma.pet.findUnique({ where: \x7b id \x7d })` is a
lookup by the unique id. -/
def findUnique (store : List Pet) (petId : String) : Option Pet :=
  store.find? (fun p => p.id == petId)

/-- The errors `PetsService` status operations can raise: a
`NotFoundException` from `getPetById`, a `BadRequestException` from
`StatusTransitionValidator.validate`, or the `ForbiddenException`
from `authorizeStatusUpdate`. -/
inductive ServiceError
  | notFound (petId : String)
  | validation (e : ValidateError)
  | forbidden (next : PetStatus)
deriving DecidableEq, Repr

/-- NestJS exception classes relevant to the status operations.
`conflict` stands for `ConflictException`, which is in the framework
taxonomy but is never thrown by `PetsService`. -/
inductive ExceptionKind
  | notFound
  | badRequest
  | forbidden
  | conflict
deriving DecidableEq, Repr

/-- The exception class a `ServiceError` is thrown as: every validator
error is a `BadRequestException`, including the admin-role message. -/
def ServiceError.kind : ServiceError → ExceptionKind
  | .notFound _ => .notFound
  | .validation _ => .badRequest
  | .forbidden _ => .forbidden

/-- Validator errors whose message reports an impossible transition:
the no-op message and the transition-not-allowed message (the spec's
InvalidTransition taxonomy entry covers exactly these two). -/
def ValidateError.isInvalidTransitionMsg : ValidateError → Bool
  | .noTransitionNeeded _ => true
  | .transitionNotAllowed _ _ => true
  | _ => false

/-- Embeds `PetsService.getPetById`: lookup, `NotFoundException` if absent. -/
def getPetById (store : List Pet) (petId : String) : Except ServiceError Pet :=
  match findUnique store petId with
  | some pet => .ok pet
  | none => .error (.notFound petId)

/-- Embeds `PetsService.authorizeStatusUpdate`: only `ADMIN` may move a
pet to `ADOPTED` or `AVAILABLE`; the `pet` and `userId` parameters are
accepted but unused, exactly as the underscore-named source parameters. -/
def authorizeStatusUpdate (_pet : Pet) (newStatus : PetStatus) (_userId : String)
    (userRole : UserRole) : Except ServiceError Unit :=
  if newStatus = PetStatus.ADOPTED ∨ newStatus = PetStatus.AVAILABLE then
    if userRole ≠ UserRole.ADMIN then
      .error (.forbidden newStatus)
    else
      .ok ()
  else
    .ok ()

/-- Embeds `prisma.pet.update({ where: \x7b id: petId \x7d, data: \x7b status \x7d })`:
the row matching the id gets the new status; the condition is on the id
alone, not on the previously observed status. -/
def updateStatus (store : List Pet) (petId : String) (newStatus : PetStatus) :
    List Pet :=
  store.map (fun p => if p.id == petId then { p with status := newStatus } else p)

/-- The audit record built by `PetsService.logStatusChange`. -/
structure LogEntry where
  petId : String
  oldStatus : PetStatus
  newStatus : PetStatus
  userId : Option String
  reason : Option String
deriving DecidableEq, Repr

/-- JavaScript `r || d` on an optional string: the default is taken both
when the value is absent and when it is the empty string (falsy). -/
def jsOrDefault (r : Option String) (d : String) : String :=
  match r with
  | some s => if s = "" then d else s
  | none => d

/-- The value returned by a successful status update: the updated pet,
the pet table after the write, and the audit record that was logged. -/
structure UpdateResult where
  pet : Pet
  store : List Pet
  log : LogEntry
deriving DecidableEq, Repr

/-- Embeds `PetsService.updatePetStatus` with the read and the write
split over two table snapshots: `observed` is the table at the
`getPetById` read, `current` the table at the `prisma.pet.update`
write.  The source conditions the write on the id alone, so a write by
another call between the read and the write still lets this call's
write apply; a single sequential call is `updatePetStatus` below, where
the two snapshots coincide. -/
def updatePetStatusAt (observed current : List Pet) (petId : String)
    (newStatus : PetStatus) (userId : String) (userRole : UserRole)
    (reason : Option String) : Except ServiceError UpdateResult :=
  match getPetById observed petId with
  | .error e => .error e
  | .ok pet =>
    match validate pet.status newStatus (some userRole) with
    | .error e => .error (.validation e)
    | .ok _ =>
      match authorizeStatusUpdate pet newStatus userId userRole with
      | .error e => .error e
      | .ok _ =>
        .ok { pet := { pet with status := newStatus }
              store := updateStatus current petId newStatus
              log := { petId := petId
                       oldStatus := pet.status
                       newStatus := newStatus
                       userId := some userId
                       reason := reason } }

/-- Embeds `PetsService.updatePetStatus` as a single sequential call. -/
def updatePetStatus (store : List Pet) (petId : String) (newStatus : PetStatus)
    (userId : String) (userRole : UserRole) (reason : Option String) :
    Except ServiceError UpdateResult :=
  updatePetStatusAt store store petId newStatus userId userRole reason

/-- Embeds `PetsService.changeStatusInternal`: same load and validation,
but validation always runs with the `ADMIN` role, there is no
`authorizeStatusUpdate` call, and the audit record carries no user and
a defaulted reason. -/
def changeStatusInternal (store : List Pet) (petId : String)
    (newStatus : PetStatus) (reason : Option String) :
    Except ServiceError UpdateResult :=
  match getPetById store petId with
  | .error e => .error e
  | .ok pet =>
    match validate pet.status newStatus (some UserRole.ADMIN) with
    | .error e => .error (.validation e)
    | .ok _ =>
      .ok { pet := { pet with status := newStatus }
            store := updateStatus store petId newStatus
            log := { petId := petId
                     oldStatus := pet.status
                     newStatus := newStatus
                     userId := none
                     reason := some (jsOrDefault reason "System-triggered status change") } }

/-- The adoption workflow status lifecycle from the adoption state machine. -/
inductive AdoptionStatus
  | REQUESTED
  | APPROVED
  | COMPLETED
  | REJECTED
deriving DecidableEq, Repr

/-- An adoption record: its own status and the pet it references. -/
structure Adoption where
  id : String
  status : AdoptionStatus
  petId : String
deriving DecidableEq, Repr

/-- Errors raised by the adoption approval workflow. -/
inductive WorkflowError
  | forbiddenActor (role : UserRole)
  | invalidAdoptionState (s : AdoptionStatus)
  | conflict
  | petError (e : ServiceError)
deriving DecidableEq, Repr

/-- Modelled from the spec: `AdoptionService.updateAdoptionStatus` (the
approval path invoked by `AdoptionController.approveAdoption`) is not
under `src/`; only its controller callers are.  Per the spec, approving
`requested → approved` requires an elevated actor and, when the pet is
`AVAILABLE`, drives the pet to `PENDING` through the internal
transition; if the pet is not in the expected state the approval is
rejected with `Conflict`, and the adoption's own status change is not
persisted. -/
def approveAdoption (adoption : Adoption) (store : List Pet)
    (actorRole : UserRole) : Except WorkflowError (Adoption × List Pet) :=
  if actorRole ≠ UserRole.ADMIN then
    .error (.forbiddenActor actorRole)
  else if adoption.status ≠ AdoptionStatus.REQUESTED then
    .error (.invalidAdoptionState adoption.status)
  else
    match findUnique store adoption.petId with
    | none => .error (.petError (.notFound adoption.petId))
    | some pet =>
      if pet.status = PetStatus.AVAILABLE then
        match changeStatusInternal store adoption.petId PetStatus.PENDING none with
        | .ok r => .ok ({ adoption with status := AdoptionStatus.APPROVED }, r.store)
        | .error e => .error (.petError e)
      else
        .error .conflict

/-- For any pair absent from the edge table, `validate` reports the no-op
message when the two statuses coincide and the not-allowed message
otherwise, independently of the caller's role. -/
theorem validate_not_in_table (a b : PetStatus) (r : Option UserRole)
    (h : ¬ inEdgeTable a b) :
    validate a b r =
      .error (if a = b then .noTransitionNeeded a else .transitionNotAllowed a b) := by
  revert h
  revert a b r
  decide

/-- The admin-only authorization never fires for the `ADMIN` role. -/
theorem authorize_admin_ok (pet : Pet) (b : PetStatus) (userId : String) :
    authorizeStatusUpdate pet b userId UserRole.ADMIN = .ok () := by
  unfold authorizeStatusUpdate
  split <;> simp

/-- C1: the spec claims the persisted status update is conditioned on the
status observed at load time, with a Conflict error for the loser of a
race.  The source's update is keyed on the pet id alone, so in the
interleaving where two calls both read the same AVAILABLE row before
either writes, both calls commit (the second overwriting the first) and
no constructor of the service error type even carries the Conflict
exception class: the code lacks the conditioned write the spec
mandates. -/
theorem C1_race_both_writes_commit :
    updatePetStatusAt [⟨"pet-1", .AVAILABLE⟩] [⟨"pet-1", .AVAILABLE⟩]
        "pet-1" .PENDING "user-a" .ADMIN none
      = .ok ⟨⟨"pet-1", .PENDING⟩, [⟨"pet-1", .PENDING⟩],
             ⟨"pet-1", .AVAILABLE, .PENDING, some "user-a", none⟩⟩ ∧
    updatePetStatusAt [⟨"pet-1", .AVAILABLE⟩] [⟨"pet-1", .PENDING⟩]
        "pet-1" .IN_CUSTODY "user-b" .ADMIN none
      = .ok ⟨⟨"pet-1", .IN_CUSTODY⟩, [⟨"pet-1", .IN_CUSTODY⟩],
             ⟨"pet-1", .AVAILABLE, .IN_CUSTODY, some "user-b", none⟩⟩ ∧
    ∀ e : ServiceError, e.kind ≠ ExceptionKind.conflict := by
  refine ⟨by decide, by decide, ?_⟩
  intro e
  cases e <;> simp [ServiceError.kind]

/-- C2: for every status pair absent from the static edge table, the
no-op pairs included, and for every actor role, `updatePetStatus` on an
existing pet fails with an invalid-transition `BadRequestException`. -/
theorem C2_absent_edges_fail_invalid_transition
    (a b : PetStatus) (role : UserRole) (store : List Pet)
    (petId userId : String) (reason : Option String) (pet : Pet)
    (hfind : findUnique store petId = some pet) (hstatus : pet.status = a)
    (htable : ¬ inEdgeTable a b) :
    ∃ e, updatePetStatus store petId b userId role reason
           = .error (.validation e)
      ∧ e.isInvalidTransitionMsg = true
      ∧ (ServiceError.validation e).kind = ExceptionKind.badRequest := by
  subst hstatus
  have hv := validate_not_in_table pet.status b (some role) htable
  refine ⟨if pet.status = b then .noTransitionNeeded pet.status
          else .transitionNotAllowed pet.status b, ?_, ?_, rfl⟩
  · simp [updatePetStatus, updatePetStatusAt, getPetById, hfind, hv]
  · by_cases hab : pet.status = b <;>
      simp [hab, ValidateError.isInvalidTransitionMsg]

/-- C2 witness at the no-op pair PENDING to PENDING for a USER actor. -/
theorem C2_witness :
    ∃ e, updatePetStatus [⟨"p1", .PENDING⟩] "p1" .PENDING "u" .USER none
           = .error (.validation e)
      ∧ e.isInvalidTransitionMsg = true
      ∧ (ServiceError.validation e).kind = ExceptionKind.badRequest :=
  C2_absent_edges_fail_invalid_transition .PENDING .PENDING .USER
    [⟨"p1", .PENDING⟩] "p1" "u" none ⟨"p1", .PENDING⟩
    (by decide) rfl (by decide)

/-- C4: for a nonexistent pet id, every requested target and every actor
role, `updatePetStatus` fails with NotFound, never Forbidden or
InvalidTransition: existence is checked first. -/
theorem C4_notfound_checked_first
    (store : List Pet) (petId : String) (hfind : findUnique store petId = none)
    (b : PetStatus) (userId : String) (role : UserRole) (reason : Option String) :
    updatePetStatus store petId b userId role reason
      = .error (.notFound petId)
    ∧ (ServiceError.notFound petId).kind = ExceptionKind.notFound := by
  refine ⟨?_, rfl⟩
  simp [updatePetStatus, updatePetStatusAt, getPetById, hfind]

/-- C4 witness: an empty store, an actor that would also fail
authorization, and a target whose edge would also be illegal. -/
theorem C4_witness :
    updatePetStatus [] "ghost" .ADOPTED "u" .USER none
      = .error (.notFound "ghost")
    ∧ (ServiceError.notFound "ghost").kind = ExceptionKind.notFound :=
  C4_notfound_checked_first [] "ghost" (by decide) .ADOPTED "u" .USER none

/-- C6: for every status and every optional role, the allowed-targets
list has no duplicates, a target is in it exactly when it is an ordinary
target or the role is ADMIN and it is an admin-only target, and for a
non-ADMIN role it never contains an admin-only target. -/
theorem C6_allowed_targets_shape :
    ∀ (s : PetStatus) (r : Option UserRole),
      (getAllowedTransitions s r).Nodup
      ∧ (∀ t : PetStatus, t ∈ getAllowedTransitions s r ↔
          (t ∈ ALLOWED_TRANSITIONS s ∨
            (r = some .ADMIN ∧ t ∈ ADMIN_ONLY_TRANSITIONS s)))
      ∧ (r ≠ some .ADMIN → ∀ t ∈ getAllowedTransitions s r,
          t ∉ ADMIN_ONLY_TRANSITIONS s) := by
  decide

/-- C10: every one of the four statuses occurs as a target somewhere in
the flattened ordinary-transition table, so the invalid-new-status
branch of `validate` is unreachable for well-typed inputs. -/
theorem C10_invalid_new_status_unreachable :
    (∀ s : PetStatus, s ∈ flatAllowedTargets)
    ∧ (∀ (a b : PetStatus) (r : Option UserRole) (s : PetStatus),
        validate a b r ≠ .error (.invalidNewStatus s)) := by
  decide

/-- C3 counterexample: for the elevated-only edge ADOPTED to AVAILABLE,
a USER actor is rejected by the validator with a BadRequestException
naming the required role, which is not the Forbidden exception class
the claim names. -/
theorem C3_counterexample :
    updatePetStatus [⟨"p1", .ADOPTED⟩] "p1" .AVAILABLE "u" .USER none
      = .error (.validation (.adminRoleRequired .ADOPTED .AVAILABLE))
    ∧ (ServiceError.validation (.adminRoleRequired .ADOPTED .AVAILABLE)).kind
        ≠ ExceptionKind.forbidden := by
  decide

/-- C3 amended: on the elevated-only edge ADOPTED to AVAILABLE, a
non-ADMIN actor is rejected with the validator BadRequestException
naming the required ADMIN role (the same exception class as an invalid
transition, not a ForbiddenException), while an ADMIN actor succeeds
and the pet is written back as AVAILABLE. -/
theorem C3_amended_elevated_edge
    (store : List Pet) (petId userId : String) (reason : Option String)
    (pet : Pet) (hfind : findUnique store petId = some pet)
    (hstatus : pet.status = .ADOPTED) :
    (∀ role : UserRole, role ≠ .ADMIN →
        updatePetStatus store petId .AVAILABLE userId role reason
          = .error (.validation (.adminRoleRequired .ADOPTED .AVAILABLE)))
    ∧ updatePetStatus store petId .AVAILABLE userId .ADMIN reason
        = .ok { pet := { pet with status := .AVAILABLE }
                store := updateStatus store petId .AVAILABLE
                log := { petId := petId, oldStatus := .ADOPTED
                         newStatus := .AVAILABLE, userId := some userId
                         reason := reason } } := by
  constructor
  · intro role hrole
    have hv : validate pet.status .AVAILABLE (some role)
        = .error (.adminRoleRequired .ADOPTED .AVAILABLE) := by
      rw [hstatus]
      cases role
      · exact absurd rfl hrole
      · decide
      · decide
    simp [updatePetStatus, updatePetStatusAt, getPetById, hfind, hv]
  · have hv : validate .ADOPTED .AVAILABLE (some .ADMIN) = .ok true := by decide
    simp [updatePetStatus, updatePetStatusAt, getPetById, hfind, hstatus, hv,
      authorize_admin_ok]

/-- C3 amended witness: SHELTER is rejected with the admin-role
BadRequest message, ADMIN succeeds, on a concrete adopted pet. -/
theorem C3_amended_witness :
    updatePetStatus [⟨"p1", .ADOPTED⟩] "p1" .AVAILABLE "u" .SHELTER none
      = .error (.validation (.adminRoleRequired .ADOPTED .AVAILABLE))
    ∧ updatePetStatus [⟨"p1", .ADOPTED⟩] "p1" .AVAILABLE "u" .ADMIN none
      = .ok ⟨⟨"p1", .AVAILABLE⟩, [⟨"p1", .AVAILABLE⟩],
             ⟨"p1", .ADOPTED, .AVAILABLE, some "u", none⟩⟩ := by
  have h := C3_amended_elevated_edge [⟨"p1", .ADOPTED⟩] "p1" "u" none
    ⟨"p1", .ADOPTED⟩ (by decide) rfl
  exact ⟨h.1 .SHELTER (by decide), h.2.trans (by decide)⟩

/-- C5: with an elevated actor and an adoption still in REQUESTED state,
approval succeeds exactly when the referenced pet is AVAILABLE, in which
case the pet is driven to PENDING through the internal transition; when
the pet is in any other state the approval fails with Conflict and no
updated adoption or pet table is produced. -/
theorem C5_approve_requires_available_pet
    (adoption : Adoption) (store : List Pet) (pet : Pet)
    (hreq : adoption.status = .REQUESTED)
    (hfind : findUnique store adoption.petId = some pet) :
    (pet.status = .AVAILABLE →
      ∃ r, changeStatusInternal store adoption.petId .PENDING none = .ok r
        ∧ r.pet.status = .PENDING
        ∧ approveAdoption adoption store .ADMIN
            = .ok ({ adoption with status := .APPROVED }, r.store))
    ∧ (pet.status ≠ .AVAILABLE →
        approveAdoption adoption store .ADMIN = .error .conflict) := by
  constructor
  · intro hav
    have hv : validate pet.status .PENDING (some .ADMIN) = .ok true := by
      rw [hav]; decide
    have hcsi : changeStatusInternal store adoption.petId .PENDING none
        = .ok { pet := { pet with status := .PENDING }
                store := updateStatus store adoption.petId .PENDING
                log := { petId := adoption.petId, oldStatus := pet.status
                         newStatus := .PENDING, userId := none
                         reason := some "System-triggered status change" } } := by
      simp [changeStatusInternal, getPetById, hfind, hv, jsOrDefault]
    refine ⟨_, hcsi, rfl, ?_⟩
    simp [approveAdoption, hreq, hfind, hav, hcsi]
  · intro hnav
    simp [approveAdoption, hreq, hfind, hnav]

/-- C5 witness: approving an adoption whose pet is already IN_CUSTODY is
rejected with Conflict. -/
theorem C5_witness :
    approveAdoption ⟨"a1", .REQUESTED, "p1"⟩ [⟨"p1", .IN_CUSTODY⟩] .ADMIN
      = .error .conflict :=
  (C5_approve_requires_available_pet ⟨"a1", .REQUESTED, "p1"⟩
      [⟨"p1", .IN_CUSTODY⟩] ⟨"p1", .IN_CUSTODY⟩ rfl (by decide)).2 (by decide)

/-- C7: the internal transition runs the validator with implicit ADMIN
authority and no service-level authorization, yet every pair absent
from the edge table still fails with the invalid-transition
BadRequestException, and with exactly the error an external call by any
actor would produce. -/
theorem C7_internal_still_validates_edges
    (a b : PetStatus) (htable : ¬ inEdgeTable a b)
    (store : List Pet) (petId : String) (reason : Option String) (pet : Pet)
    (hfind : findUnique store petId = some pet) (hstatus : pet.status = a) :
    ∃ e, changeStatusInternal store petId b reason = .error (.validation e)
      ∧ e.isInvalidTransitionMsg = true
      ∧ ∀ (userId : String) (role : UserRole) (reason2 : Option String),
          updatePetStatus store petId b userId role reason2
            = .error (.validation e) := by
  subst hstatus
  refine ⟨if pet.status = b then .noTransitionNeeded pet.status
          else .transitionNotAllowed pet.status b, ?_, ?_, ?_⟩
  · have hv := validate_not_in_table pet.status b (some .ADMIN) htable
    simp [changeStatusInternal, getPetById, hfind, hv]
  · by_cases hab : pet.status = b <;>
      simp [hab, ValidateError.isInvalidTransitionMsg]
  · intro userId role reason2
    have hv := validate_not_in_table pet.status b (some role) htable
    simp [updatePetStatus, updatePetStatusAt, getPetById, hfind, hv]

/-- C7 witness: IN_CUSTODY to ADOPTED is absent from the table and fails
identically through the internal and the external entry points. -/
theorem C7_witness :
    ∃ e, changeStatusInternal [⟨"p1", .IN_CUSTODY⟩] "p1" .ADOPTED none
           = .error (.validation e)
      ∧ e.isInvalidTransitionMsg = true
      ∧ ∀ (userId : String) (role : UserRole) (reason2 : Option String),
          updatePetStatus [⟨"p1", .IN_CUSTODY⟩] "p1" .ADOPTED userId role reason2
            = .error (.validation e) :=
  C7_internal_still_validates_edges .IN_CUSTODY .ADOPTED (by decide)
    [⟨"p1", .IN_CUSTODY⟩] "p1" none ⟨"p1", .IN_CUSTODY⟩ (by decide) rfl

/-- C8 counterexample: an existing AVAILABLE pet, a USER actor and the
target ADOPTED produce the validator invalid-transition error, not a
Forbidden error: the validator runs before the admin-only
authorization, so not every ADOPTED or AVAILABLE request by a non-admin
fails with Forbidden. -/
theorem C8_counterexample :
    updatePetStatus [⟨"p1", .AVAILABLE⟩] "p1" .ADOPTED "u" .USER none
      = .error (.validation (.transitionNotAllowed .AVAILABLE .ADOPTED))
    ∧ (ServiceError.validation (.transitionNotAllowed .AVAILABLE .ADOPTED)).kind
        ≠ ExceptionKind.forbidden := by
  decide

/-- The validator only ever carries the boolean true on success. -/
theorem validate_ok_true : ∀ (a b : PetStatus) (r : Option UserRole) (v : Bool),
    validate a b r = .ok v → v = true := by
  decide

/-- C8 amended: for an existing pet and a non-ADMIN actor, every request
whose target is ADOPTED or AVAILABLE fails before writing; the error is
the ForbiddenException exactly when the edge-table validation passes,
and otherwise it is exactly the BadRequestException the validator
raised, so in every case the exception class is BadRequest when it is
not Forbidden.  The ordinary edges to AVAILABLE are therefore admin-only
at the service level. -/
theorem C8_amended_admin_gated_targets
    (store : List Pet) (petId userId : String) (reason : Option String)
    (pet : Pet) (hfind : findUnique store petId = some pet)
    (role : UserRole) (hrole : role ≠ .ADMIN) (b : PetStatus)
    (hb : b = .ADOPTED ∨ b = .AVAILABLE) :
    ∃ e, updatePetStatus store petId b userId role reason = .error e
      ∧ (e = ServiceError.forbidden b ↔
          validate pet.status b (some role) = .ok true)
      ∧ (∀ ve, validate pet.status b (some role) = .error ve →
          e = ServiceError.validation ve)
      ∧ (validate pet.status b (some role) ≠ .ok true →
          e.kind = ExceptionKind.badRequest) := by
  cases hv : validate pet.status b (some role) with
  | error e' =>
      refine ⟨.validation e', ?_, ?_, ?_, fun _ => rfl⟩
      · simp [updatePetStatus, updatePetStatusAt, getPetById, hfind, hv]
      · constructor
        · intro h
          exact ServiceError.noConfusion h
        · intro h
          exact Except.noConfusion h
      · intro ve hve
        injection hve with h
        rw [h]
  | ok v =>
      have hvt := validate_ok_true pet.status b (some role) v hv
      subst hvt
      have hauth : authorizeStatusUpdate pet b userId role
          = .error (.forbidden b) := by
        rcases hb with h | h <;> subst h <;> simp [authorizeStatusUpdate, hrole]
      refine ⟨.forbidden b, ?_, ?_, ?_, fun h => absurd rfl h⟩
      · simp [updatePetStatus, updatePetStatusAt, getPetById, hfind, hv, hauth]
      · simp
      · intro ve hve
        exact Except.noConfusion hve

/-- C8 amended witness: a SHELTER actor on the ordinary edge PENDING to
AVAILABLE is stopped by the service-level admin gate with the Forbidden
error, the edge-table validation having passed. -/
theorem C8_amended_witness :
    ∃ e, updatePetStatus [⟨"p1", .PENDING⟩] "p1" .AVAILABLE "u" .SHELTER none
           = .error e
      ∧ (e = ServiceError.forbidden .AVAILABLE ↔
          validate .PENDING .AVAILABLE (some .SHELTER) = .ok true)
      ∧ (∀ ve, validate .PENDING .AVAILABLE (some .SHELTER) = .error ve →
          e = ServiceError.validation ve)
      ∧ (validate .PENDING .AVAILABLE (some .SHELTER) ≠ .ok true →
          e.kind = ExceptionKind.badRequest) :=
  C8_amended_admin_gated_targets [⟨"p1", .PENDING⟩] "p1" "u" none
    ⟨"p1", .PENDING⟩ (by decide) .SHELTER (by decide) .AVAILABLE (Or.inr rfl)

/-- C9 counterexample: with the empty-string reason, the external ADMIN
call and the internal call succeed identically on the store, but their
audit records differ in the reason as well as in the actor: the
internal call substitutes the default reason for a falsy one, so the
two calls do not differ only in the recorded actor. -/
theorem C9_counterexample :
    updatePetStatus [⟨"p1", .AVAILABLE⟩] "p1" .PENDING "u" .ADMIN (some "")
      = .ok ⟨⟨"p1", .PENDING⟩, [⟨"p1", .PENDING⟩],
             ⟨"p1", .AVAILABLE, .PENDING, some "u", some ""⟩⟩
    ∧ changeStatusInternal [⟨"p1", .AVAILABLE⟩] "p1" .PENDING (some "")
      = .ok ⟨⟨"p1", .PENDING⟩, [⟨"p1", .PENDING⟩],
             ⟨"p1", .AVAILABLE, .PENDING, none,
              some "System-triggered status change"⟩⟩
    ∧ (some "" : Option String) ≠ some "System-triggered status change" := by
  decide

/-- C9 amended: for every store, pet id, target and reason,
`changeStatusInternal` fails with exactly the errors
`updatePetStatus` with the ADMIN role fails with, succeeds exactly when
it succeeds, and on success returns the same pet and the same written
table; the audit records agree on the pet and the statuses, while the
external call records the user and the verbatim reason and the internal
call records no user and the reason with a default substituted when the
supplied reason is absent or empty. -/
theorem C9_amended_internal_equals_admin_external
    (store : List Pet) (petId : String) (b : PetStatus) (userId : String)
    (reason : Option String) :
    (∀ e, updatePetStatus store petId b userId .ADMIN reason = .error e ↔
          changeStatusInternal store petId b reason = .error e)
    ∧ (∀ r1, updatePetStatus store petId b userId .ADMIN reason = .ok r1 →
        ∃ r2, changeStatusInternal store petId b reason = .ok r2
          ∧ r1.pet = r2.pet ∧ r1.store = r2.store
          ∧ r2.log.petId = r1.log.petId
          ∧ r2.log.oldStatus = r1.log.oldStatus
          ∧ r2.log.newStatus = r1.log.newStatus
          ∧ r1.log.userId = some userId ∧ r2.log.userId = none
          ∧ r1.log.reason = reason
          ∧ r2.log.reason
              = some (jsOrDefault reason "System-triggered status change"))
    ∧ (∀ r2, changeStatusInternal store petId b reason = .ok r2 →
        ∃ r1, updatePetStatus store petId b userId .ADMIN reason = .ok r1) := by
  cases hfind : findUnique store petId with
  | none =>
      refine ⟨?_, ?_, ?_⟩ <;>
        simp [updatePetStatus, updatePetStatusAt, changeStatusInternal,
          getPetById, hfind]
  | some pet =>
      cases hv : validate pet.status b (some .ADMIN) with
      | error e' =>
          refine ⟨?_, ?_, ?_⟩ <;>
            simp [updatePetStatus, updatePetStatusAt, changeStatusInternal,
              getPetById, hfind, hv]
      | ok v =>
          have hauth := authorize_admin_ok pet b userId
          refine ⟨?_, ?_, ?_⟩ <;>
            simp [updatePetStatus, updatePetStatusAt, changeStatusInternal,
              getPetById, hfind, hv, hauth]

/-- C9 amended witness: on a nonexistent id the internal call fails with
the same NotFound error as the external ADMIN call. -/
theorem C9_amended_witness :
    changeStatusInternal [] "p1" .PENDING none = .error (.notFound "p1") :=
  ((C9_amended_internal_equals_admin_external [] "p1" .PENDING "u" none).1
      (.notFound "p1")).mp (by decide)

end PetAd
